import Mathlib

set_option maxRecDepth 8192

/-!
Shallow embedding of `lcd_1602_i2c.cpp`, a driver for an HD44780-family
LCD 1602 panel behind a PCF8574T I2C bridge.

The driver class `Lcd` holds a single field, the peripheral address; no
method mutates it.  Every operation only emits I2C byte writes and
millisecond delays, so each method is embedded as a function from the
driver state (and arguments) to the unchanged state paired with the list
of bus-level events the method performs, in order.  Machine bytes are
`Nat` with explicit `% 256` where the C++ `uint8_t` conversions truncate.
-/

/-- A bus-level side effect: a one-byte I2C write to a peripheral address
with the no-stop flag of `i2c_write_blocking`, or a `sleep_ms` delay. -/
inductive Event where
  | write (addr : Nat) (byte : Nat) (noStop : Bool)
  | sleep (ms : Nat)
deriving DecidableEq, Repr

/-- Recognizer for delay events. -/
def Event.isSleep : Event → Bool
  | .sleep _ => true
  | _ => false

/-- The `Lcd` class: its only data member is `peripheralAddr`. -/
structure Lcd where
  peripheralAddr : Nat
deriving DecidableEq, Repr

/-- `Lcd::sendByte(uint8_t val)`: writes `val | backlight | enable` then
`(val & ~enable) | backlight`, both with nostop set, to `peripheralAddr`.
The `uint8_t` parameter truncates the argument to a byte; `val & ~enable`
on a byte equals `val &&& 0xFB`. -/
def Lcd.sendByte (l : Lcd) (val : Nat) : Lcd × List Event :=
  let v := val % 256
  let backlight := 0x08
  let enable := 0x04
  let noStop := true
  let val_enabled := v ||| backlight ||| enable
  let val_disabled := (v &&& 0xFB) ||| backlight
  (l, [Event.write l.peripheralAddr val_enabled noStop,
       Event.write l.peripheralAddr val_disabled noStop])

/-- `uint8_t high = (val & 0xF0) | cmdRegister;` from `Lcd::sendCommand`,
with `cmdRegister = 0x00`. -/
def commandHigh (val : Nat) : Nat := ((val % 256) &&& 0xF0) ||| 0x00

/-- `uint8_t low = ((val << 4) & 0xF0) | cmdRegister;` from
`Lcd::sendCommand`, with `cmdRegister = 0x00`. -/
def commandLow (val : Nat) : Nat := (((val % 256) <<< 4) &&& 0xF0) ||| 0x00

/-- `Lcd::sendCommand(uint8_t val)`: sends the high-nibble frame, then the
low-nibble frame, then sleeps 2 ms. -/
def Lcd.sendCommand (l : Lcd) (val : Nat) : Lcd × List Event :=
  let p1 := l.sendByte (commandHigh val)
  let p2 := p1.1.sendByte (commandLow val)
  (p2.1, p1.2 ++ p2.2 ++ [Event.sleep 2])

/-- `uint8_t high = (val & 0xF0) | dataRegister;` from `Lcd::sendData`,
with `dataRegister = 0x01`. -/
def dataHigh (val : Nat) : Nat := ((val % 256) &&& 0xF0) ||| 0x01

/-- `uint8_t low = ((val << 4) & 0xF0) | dataRegister;` from
`Lcd::sendData`, with `dataRegister = 0x01`. -/
def dataLow (val : Nat) : Nat := (((val % 256) <<< 4) &&& 0xF0) ||| 0x01

/-- `Lcd::sendData(uint8_t val)`: sends the high-nibble frame then the
low-nibble frame; unlike `sendCommand`, there is no trailing delay. -/
def Lcd.sendData (l : Lcd) (val : Nat) : Lcd × List Event :=
  let p1 := l.sendByte (dataHigh val)
  let p2 := p1.1.sendByte (dataLow val)
  (p2.1, p1.2 ++ p2.2)

/-- `Lcd::print(const char *s)`: `while (*s) sendData(*s++);`.  The
argument models the bytes of the string buffer; the loop stops at the
first NUL byte (for a well-formed C string the list holds the characters
before the terminator, all nonzero). -/
def Lcd.print (l : Lcd) : List Nat → Lcd × List Event
  | [] => (l, [])
  | c :: rest =>
    if c % 256 = 0 then (l, [])
    else
      let p1 := l.sendData c
      let p2 := p1.1.print rest
      (p2.1, p1.2 ++ p2.2)

/-- C++ conversion from `int` to `uint8_t`: value modulo 256. -/
def uint8OfInt (i : Int) : Nat := (i % 256).toNat

/-- `Lcd::setCursor(const int row, const int column)`: `switch (row)` with
cases 0 (`ROW_1 = 0x08`) and 1 (`ROW_2 = 0xC0`); any other row falls
through the switch and does nothing.  `ROW_x + column` is `int`
arithmetic, truncated to a byte at the `sendCommand` call. -/
def Lcd.setCursor (l : Lcd) (row : Int) (column : Int) : Lcd × List Event :=
  let ROW_1 : Int := 0x08
  let ROW_2 : Int := 0xC0
  if row = 0 then l.sendCommand (uint8OfInt (ROW_1 + column))
  else if row = 1 then l.sendCommand (uint8OfInt (ROW_2 + column))
  else (l, [])

/-- `Lcd::init()`: sleep 15 ms, then five `sendCommand` calls built from
the named instruction constants of the source. -/
def Lcd.init (l : Lcd) : Lcd × List Event :=
  let returnHomeInst := 0x02
  let functionSetInst := 0x20
  let fourBitDL := 0x00
  let twoLineDisplay := 0x08
  let fiveByEightDots := 0x00
  let displayInst := 0x08
  let displayOn := 0x04
  let cursorOff := 0x00
  let blinkOff := 0x00
  let entryModeInst := 0x04
  let directionIncrement := 0x02
  let displayShiftOff := 0x00
  let clearDisplayInst := 0x01
  let p1 := l.sendCommand returnHomeInst
  let p2 := p1.1.sendCommand (functionSetInst ||| fourBitDL ||| twoLineDisplay ||| fiveByEightDots)
  let p3 := p2.1.sendCommand (displayInst ||| displayOn ||| cursorOff ||| blinkOff)
  let p4 := p3.1.sendCommand (entryModeInst ||| directionIncrement ||| displayShiftOff)
  let p5 := p4.1.sendCommand clearDisplayInst
  (p5.1, Event.sleep 15 :: (p1.2 ++ p2.2 ++ p3.2 ++ p4.2 ++ p5.2))

/-- `Lcd::clear()`: `sendCommand(CLEAR_DISPLAY)` with `CLEAR_DISPLAY = 0x01`. -/
def Lcd.clear (l : Lcd) : Lcd × List Event :=
  let CLEAR_DISPLAY := 0x01
  l.sendCommand CLEAR_DISPLAY

/-! ## Helper lemmas (byte-level facts, checked over all 256 byte values) -/

/-- Nibble facts about the two command frames, for every byte value. -/
theorem commandFrameFacts : ∀ v < 256, commandHigh v >>> 4 = v >>> 4
    ∧ commandLow v >>> 4 = ((v <<< 4) % 256) >>> 4
    ∧ commandHigh v &&& 0x01 = 0 ∧ commandLow v &&& 0x01 = 0 := by decide

/-- Nibble facts about the two data frames, for every byte value. -/
theorem dataFrameFacts : ∀ v < 256, dataHigh v >>> 4 = v >>> 4
    ∧ dataLow v >>> 4 = ((v <<< 4) % 256) >>> 4
    ∧ dataHigh v &&& 0x01 = 1 ∧ dataLow v &&& 0x01 = 1 := by decide

/-- Bit facts about the enable-asserted and enable-deasserted bytes built
by `sendByte`, for every byte value: enable bit (0x04), backlight bit
(0x08), and preservation of the data/register-select bits (mask 0xF1). -/
theorem byteFacts : ∀ v < 256,
    (v ||| 0x08 ||| 0x04) &&& 0x04 = 0x04
    ∧ ((v &&& 0xFB) ||| 0x08) &&& 0x04 = 0
    ∧ (v ||| 0x08 ||| 0x04) &&& 0x08 = 0x08
    ∧ ((v &&& 0xFB) ||| 0x08) &&& 0x08 = 0x08
    ∧ (v ||| 0x08 ||| 0x04) &&& 0xF1 = v &&& 0xF1
    ∧ ((v &&& 0xFB) ||| 0x08) &&& 0xF1 = v &&& 0xF1 := by decide

/-! ## Claim theorems -/

/-- C1: for every byte value `v`, `sendCommand v` produces exactly two
frame writes, the high-nibble frame first and the low-nibble frame
second, whose high nibbles are the high nibble of `v` and the high nibble
of the byte `v <<< 4` respectively, with the register-select bit (bit 0)
cleared in both frames, and after both frames a delay of at least 2 ms. -/
theorem sendCommand_two_frames (l : Lcd) (v : Nat) (hv : v < 256) :
    (l.sendCommand v).2
      = (l.sendByte (commandHigh v)).2 ++ (l.sendByte (commandLow v)).2 ++ [Event.sleep 2]
    ∧ commandHigh v >>> 4 = v >>> 4
    ∧ commandLow v >>> 4 = ((v <<< 4) % 256) >>> 4
    ∧ commandHigh v &&& 0x01 = 0
    ∧ commandLow v &&& 0x01 = 0
    ∧ (2 : Nat) ≥ 2 := by
  obtain ⟨h1, h2, h3, h4⟩ := commandFrameFacts v hv
  exact ⟨rfl, h1, h2, h3, h4, le_refl 2⟩

/-- Witness for C1 at `v = 0x35`. -/
theorem sendCommand_two_frames_witness :
    (0x35 : Nat) < 256
    ∧ (((Lcd.mk 0x27).sendCommand 0x35).2
        = ((Lcd.mk 0x27).sendByte (commandHigh 0x35)).2
          ++ ((Lcd.mk 0x27).sendByte (commandLow 0x35)).2 ++ [Event.sleep 2]
      ∧ commandHigh 0x35 >>> 4 = 0x35 >>> 4
      ∧ commandLow 0x35 >>> 4 = ((0x35 <<< 4) % 256) >>> 4
      ∧ commandHigh 0x35 &&& 0x01 = 0
      ∧ commandLow 0x35 &&& 0x01 = 0
      ∧ (2 : Nat) ≥ 2) :=
  ⟨by decide, sendCommand_two_frames (Lcd.mk 0x27) 0x35 (by decide)⟩

/-- C2: for every byte value `v`, `sendData v` produces exactly two frame
writes with the same high-then-low nibble splitting as `sendCommand` but
with the register-select bit (bit 0) set in both frames, and its event
trace contains no delay at all. -/
theorem sendData_two_frames (l : Lcd) (v : Nat) (hv : v < 256) :
    (l.sendData v).2 = (l.sendByte (dataHigh v)).2 ++ (l.sendByte (dataLow v)).2
    ∧ dataHigh v >>> 4 = v >>> 4
    ∧ dataLow v >>> 4 = ((v <<< 4) % 256) >>> 4
    ∧ dataHigh v &&& 0x01 = 1
    ∧ dataLow v &&& 0x01 = 1
    ∧ ((l.sendData v).2.all fun e => ! e.isSleep) = true := by
  obtain ⟨h1, h2, h3, h4⟩ := dataFrameFacts v hv
  exact ⟨rfl, h1, h2, h3, h4, rfl⟩

/-- Witness for C2 at `v = 0x41`. -/
theorem sendData_two_frames_witness :
    (0x41 : Nat) < 256
    ∧ (((Lcd.mk 0x27).sendData 0x41).2
        = ((Lcd.mk 0x27).sendByte (dataHigh 0x41)).2 ++ ((Lcd.mk 0x27).sendByte (dataLow 0x41)).2
      ∧ dataHigh 0x41 >>> 4 = 0x41 >>> 4
      ∧ dataLow 0x41 >>> 4 = ((0x41 <<< 4) % 256) >>> 4
      ∧ dataHigh 0x41 &&& 0x01 = 1
      ∧ dataLow 0x41 &&& 0x01 = 1
      ∧ (((Lcd.mk 0x27).sendData 0x41).2.all fun e => ! e.isSleep) = true) :=
  ⟨by decide, sendData_two_frames (Lcd.mk 0x27) 0x41 (by decide)⟩

/-- C3: for every byte value `v`, `sendByte v` performs exactly two bus
writes to the peripheral address: the first byte has the enable bit
(0x04) set, the second has it cleared, the backlight bit (0x08) is set in
both, the four data bits and the register-select bit of the input (mask
0xF1) are preserved in both, and both writes carry the no-stop flag. -/
theorem sendByte_enable_pulse (l : Lcd) (v : Nat) (hv : v < 256) :
    ∃ b1 b2,
      (l.sendByte v).2
        = [Event.write l.peripheralAddr b1 true, Event.write l.peripheralAddr b2 true]
      ∧ b1 &&& 0x04 = 0x04 ∧ b2 &&& 0x04 = 0
      ∧ b1 &&& 0x08 = 0x08 ∧ b2 &&& 0x08 = 0x08
      ∧ b1 &&& 0xF1 = v &&& 0xF1 ∧ b2 &&& 0xF1 = v &&& 0xF1 := by
  obtain ⟨h1, h2, h3, h4, h5, h6⟩ := byteFacts v hv
  have hm : v % 256 = v := Nat.mod_eq_of_lt hv
  refine ⟨v ||| 0x08 ||| 0x04, (v &&& 0xFB) ||| 0x08, ?_, h1, h2, h3, h4, h5, h6⟩
  simp [Lcd.sendByte, hm]

/-- Witness for C3 at `v = 0xA5`. -/
theorem sendByte_enable_pulse_witness :
    (0xA5 : Nat) < 256
    ∧ ∃ b1 b2,
      ((Lcd.mk 0x27).sendByte 0xA5).2
        = [Event.write (Lcd.mk 0x27).peripheralAddr b1 true,
           Event.write (Lcd.mk 0x27).peripheralAddr b2 true]
      ∧ b1 &&& 0x04 = 0x04 ∧ b2 &&& 0x04 = 0
      ∧ b1 &&& 0x08 = 0x08 ∧ b2 &&& 0x08 = 0x08
      ∧ b1 &&& 0xF1 = 0xA5 &&& 0xF1 ∧ b2 &&& 0xF1 = 0xA5 &&& 0xF1 :=
  ⟨by decide, sendByte_enable_pulse (Lcd.mk 0x27) 0xA5 (by decide)⟩

/-- Round-trip fact for the command frames, for every byte value. -/
theorem roundtripFacts : ∀ v < 256,
    (commandHigh v &&& 0xF0) ||| (commandLow v >>> 4) = v := by decide

/-- C4: `init` first waits at least 15 ms and then emits, in strict
order, exactly the five commands return-home (0x02), function-set (0x28),
display-control (0x0C), entry-mode (0x06) and clear-display (0x01), each
through `sendCommand` and hence decomposed into its two nibble frames. -/
theorem init_command_sequence (l : Lcd) :
    ∃ d, (l.init).2
        = Event.sleep d :: ((l.sendCommand 0x02).2 ++ (l.sendCommand 0x28).2
          ++ (l.sendCommand 0x0C).2 ++ (l.sendCommand 0x06).2 ++ (l.sendCommand 0x01).2)
      ∧ d ≥ 15 :=
  ⟨15, rfl, le_refl 15⟩

/-- C5: for columns that fit the byte range, `setCursor 0 c` emits exactly
the one command `0x08 + c`, `setCursor 1 c` emits exactly the one command
`0xC0 + c`, and for any row outside 0 and 1 `setCursor` emits nothing and
returns normally with the state unchanged. -/
theorem setCursor_emits (l : Lcd) (c : Nat) (r : Int) (hc : c ≤ 63)
    (hr0 : r ≠ 0) (hr1 : r ≠ 1) :
    (l.setCursor 0 (c : Int)).2 = (l.sendCommand (0x08 + c)).2
    ∧ (l.setCursor 1 (c : Int)).2 = (l.sendCommand (0xC0 + c)).2
    ∧ l.setCursor r (c : Int) = (l, []) := by
  have h0 : uint8OfInt (0x08 + (c : Int)) = 0x08 + c := by
    unfold uint8OfInt; omega
  have h1 : uint8OfInt (0xC0 + (c : Int)) = 0xC0 + c := by
    unfold uint8OfInt; omega
  refine ⟨?_, ?_, ?_⟩
  · simp [Lcd.setCursor, h0]
  · simp [Lcd.setCursor, h1]
  · simp [Lcd.setCursor, hr0, hr1]

/-- Witness for C5 at `c = 5`, `r = 2`. -/
theorem setCursor_emits_witness :
    (5 : Nat) ≤ 63 ∧ (2 : Int) ≠ 0 ∧ (2 : Int) ≠ 1
    ∧ (((Lcd.mk 0x27).setCursor 0 ((5 : Nat) : Int)).2 = ((Lcd.mk 0x27).sendCommand (0x08 + 5)).2
      ∧ ((Lcd.mk 0x27).setCursor 1 ((5 : Nat) : Int)).2 = ((Lcd.mk 0x27).sendCommand (0xC0 + 5)).2
      ∧ (Lcd.mk 0x27).setCursor 2 ((5 : Nat) : Int) = (Lcd.mk 0x27, [])) :=
  ⟨by decide, by decide, by decide,
   setCursor_emits (Lcd.mk 0x27) 5 2 (by decide) (by decide) (by decide)⟩

/-- C6: for every string (list of nonzero character bytes), `print`
performs exactly one `sendData` call per character in original order and
leaves the state unchanged; in particular, printing "AB" (0x41, 0x42)
emits exactly the four data frames 0x41, 0x11, 0x41, 0x21 — high then low
nibble of 0x41, then high then low nibble of 0x42, each with the
register-select bit set. -/
theorem print_sends_each_char (l : Lcd) (s : List Nat) (hs : ∀ c ∈ s, c % 256 ≠ 0) :
    ((l.print s).2 = (s.map fun c => (l.sendData c).2).flatten
      ∧ (l.print s).1 = l)
    ∧ ((Lcd.mk 0x27).print [0x41, 0x42]).2
        = ((Lcd.mk 0x27).sendByte 0x41).2 ++ ((Lcd.mk 0x27).sendByte 0x11).2
          ++ ((Lcd.mk 0x27).sendByte 0x41).2 ++ ((Lcd.mk 0x27).sendByte 0x21).2 := by
  refine ⟨?_, rfl⟩
  induction s with
  | nil => exact ⟨rfl, rfl⟩
  | cons c rest ih =>
    have hc : c % 256 ≠ 0 := hs c (List.mem_cons_self c rest)
    have ih' := ih fun x hx => hs x (List.mem_cons_of_mem c hx)
    have e : l.print (c :: rest)
        = ((l.print rest).1, (l.sendData c).2 ++ (l.print rest).2) := by
      simp only [Lcd.print, Lcd.sendData, Lcd.sendByte, if_neg hc]
    rw [e]
    refine ⟨?_, ih'.2⟩
    rw [List.map_cons, List.flatten_cons, ih'.1]

/-- Witness for C6 at the string "AB". -/
theorem print_sends_each_char_witness :
    (∀ c ∈ [0x41, 0x42], c % 256 ≠ 0)
    ∧ ((((Lcd.mk 0x27).print [0x41, 0x42]).2
        = ([0x41, 0x42].map fun c => ((Lcd.mk 0x27).sendData c).2).flatten
      ∧ ((Lcd.mk 0x27).print [0x41, 0x42]).1 = Lcd.mk 0x27)
      ∧ ((Lcd.mk 0x27).print [0x41, 0x42]).2
        = ((Lcd.mk 0x27).sendByte 0x41).2 ++ ((Lcd.mk 0x27).sendByte 0x11).2
          ++ ((Lcd.mk 0x27).sendByte 0x41).2 ++ ((Lcd.mk 0x27).sendByte 0x21).2) :=
  ⟨by decide, print_sends_each_char (Lcd.mk 0x27) [0x41, 0x42] (by decide)⟩

/-- C7: for every byte value `v`, `sendCommand v` emits the frames
`commandHigh v` and `commandLow v`, and recombining them — the high
nibble of the first frame as bits 7..4 and the high nibble of the second
frame as bits 3..0 — recovers exactly `v`. -/
theorem command_frames_roundtrip (l : Lcd) (v : Nat) (hv : v < 256) :
    (l.sendCommand v).2
      = (l.sendByte (commandHigh v)).2 ++ (l.sendByte (commandLow v)).2 ++ [Event.sleep 2]
    ∧ (commandHigh v &&& 0xF0) ||| (commandLow v >>> 4) = v :=
  ⟨rfl, roundtripFacts v hv⟩

/-- Witness for C7 at `v = 0xA7`. -/
theorem command_frames_roundtrip_witness :
    (0xA7 : Nat) < 256
    ∧ (((Lcd.mk 0x27).sendCommand 0xA7).2
        = ((Lcd.mk 0x27).sendByte (commandHigh 0xA7)).2
          ++ ((Lcd.mk 0x27).sendByte (commandLow 0xA7)).2 ++ [Event.sleep 2]
      ∧ (commandHigh 0xA7 &&& 0xF0) ||| (commandLow 0xA7 >>> 4) = 0xA7) :=
  ⟨by decide, command_frames_roundtrip (Lcd.mk 0x27) 0xA7 (by decide)⟩

/-- C8 (code-bug evidence): at row 0, column 0, `setCursor` issues the
command byte `0x08` (from `ROW_1 = 0x08`), whose bit 7 is clear, so it is
not a set-DDRAM-address instruction; by contrast row 1 issues `0xC0`,
whose bit 7 is set, as a set-DDRAM-address instruction requires. -/
theorem setCursor_row0_not_ddram :
    ((Lcd.mk 0x27).setCursor 0 0).2 = ((Lcd.mk 0x27).sendCommand 0x08).2
    ∧ 0x08 &&& 0x80 = 0
    ∧ ((Lcd.mk 0x27).setCursor 1 0).2 = ((Lcd.mk 0x27).sendCommand 0xC0).2
    ∧ 0xC0 &&& 0x80 = 0x80 := by decide

/-- C9: two consecutive `clear` calls produce two identical clear-command
traces — each the two nibble frames of 0x01 (with register-select bit
cleared) followed by the 2 ms delay — and the driver state after the two
calls equals the state before them. -/
theorem clear_twice_idempotent (l : Lcd) :
    ((l.clear).1.clear).2 = (l.clear).2
    ∧ (l.clear).2
        = (l.sendByte (commandHigh 0x01)).2 ++ (l.sendByte (commandLow 0x01)).2
          ++ [Event.sleep 2]
    ∧ commandHigh 0x01 &&& 0x01 = 0 ∧ commandLow 0x01 &&& 0x01 = 0
    ∧ ((l.clear).1.clear).1 = l :=
  ⟨rfl, rfl, rfl, rfl, rfl⟩

/-- C10: `print` on the empty string performs no bus writes and no delays
and leaves the driver state unchanged. -/
theorem print_empty_noop (l : Lcd) :
    (l.print []).2 = [] ∧ (l.print []).1 = l :=
  ⟨rfl, rfl⟩
